import Mathlib

/-!
Verification of the TriCare-AI backend's symptom-routing pipeline
(`app/graphs/symptom_workflow.py`), its HTTP route
(`app/api/routes/symptoms.py`), its request/response schemas
(`app/schemas/symptoms.py`) and the doctor-finder service
(`app/services/doctor_finder.py`), as a shallow embedding.

Python dynamic values flowing out of `json.loads` are modelled by the
`Json` inductive; Python exceptions by the `PyError` type threaded through
`Except`.  Machine floats never appear on any verified path.
-/

namespace TriCare

/-- Model of a parsed Python JSON value (the result of `json.loads`).
JSON numbers are modelled as integers; fractional and exponent forms do
not occur in any claim and are rejected by the parser model. -/
inductive Json where
  | null : Json
  | bool : Bool → Json
  | num : Int → Json
  | str : String → Json
  | arr : List Json → Json
  | obj : List (String × Json) → Json
deriving Repr

/-- Python exception model, restricted to the kinds the embedded code can
raise.  `json.JSONDecodeError` is a subclass of `ValueError` in CPython,
which matters for the route's `except ValueError` clause; pydantic's
`ValidationError` also subclasses `ValueError`. -/
inductive PyError where
  | valueError (msg : String)
  | jsonDecodeError (msg : String)
  | validationError (msg : String)
  | keyError (key : String)
  | typeError (msg : String)
  | attributeError (msg : String)
deriving Repr, DecidableEq

/-- Which exceptions the route's `except ValueError` clause catches. -/
def PyError.isValueError : PyError → Bool
  | .valueError _ => true
  | .jsonDecodeError _ => true
  | .validationError _ => true
  | _ => false

/-- `str(e)` as used by the route when formatting a caught `ValueError`. -/
def PyError.message : PyError → String
  | .valueError m => m
  | .jsonDecodeError m => m
  | .validationError m => m
  | .keyError k => "\x27" ++ k ++ "\x27"
  | .typeError m => m
  | .attributeError m => m

/-- Insert a key into a Python-dict model: assigning an existing key keeps
its position and replaces its value, a new key is appended (CPython 3.7+
dict semantics, which `json.loads` uses for repeated keys). -/
def insertKey (fs : List (String × Json)) (k : String) (v : Json) :
    List (String × Json) :=
  match fs with
  | [] => [(k, v)]
  | (k0, v0) :: rest =>
      if k0 = k then (k0, v) :: rest else (k0, v0) :: insertKey rest k v

/-- Association lookup on the field list of an object (keys are unique by
construction of `insertKey`, so first match suffices). -/
def lookupKey (fs : List (String × Json)) (k : String) : Option Json :=
  match fs with
  | [] => none
  | (k0, v) :: rest => if k0 = k then some v else lookupKey rest k

/-- `result[key]` on a parsed JSON value: a dict raises `KeyError` when
the key is absent; non-dict values raise `TypeError` when subscripted
with a string. -/
def Json.getItem (j : Json) (k : String) : Except PyError Json :=
  match j with
  | .obj fs =>
      match lookupKey fs k with
      | some v => .ok v
      | none => .error (.keyError k)
  | _ => .error (.typeError "value is not subscriptable by str")

/-- `result.get(key, default)` on a parsed JSON value: only dicts have a
`.get` method; any other value raises `AttributeError`. -/
def Json.pyGet (j : Json) (k : String) (default : Json) :
    Except PyError Json :=
  match j with
  | .obj fs =>
      match lookupKey fs k with
      | some v => .ok v
      | none => .ok default
  | _ => .error (.attributeError "value has no attribute get")

/-- Python truthiness of a JSON-shaped value (`if x:`). -/
def Json.truthy : Json → Bool
  | .null => false
  | .bool b => b
  | .num n => n != 0
  | .str s => s.length != 0
  | .arr xs => !xs.isEmpty
  | .obj fs => !fs.isEmpty

/-- `sep.join(items)` on a list of strings. -/
def joinSep (sep : String) : List String → String
  | [] => ""
  | [x] => x
  | x :: xs => x ++ sep ++ joinSep sep xs

/-- Checks that every element of the list is a JSON string, returning the
underlying strings. -/
def allStrings : List Json → Option (List String)
  | [] => some []
  | .str s :: rest => (allStrings rest).map (s :: ·)
  | _ => none

/-- `sep.join(x)` on a dynamic value, per CPython: a `str` is an iterable
of one-character strings; a `list` joins when every item is a `str` and
raises `TypeError` otherwise; a `dict` iterates its keys (always strings
after `json.loads`); every other value raises `TypeError`. -/
def pyJoin (sep : String) : Json → Except PyError String
  | .str s => .ok (joinSep sep (s.data.map (fun c => String.mk [c])))
  | .arr xs =>
      match allStrings xs with
      | some ss => .ok (joinSep sep ss)
      | none => .error (.typeError "sequence item: expected str instance")
  | .obj fs => .ok (joinSep sep (fs.map Prod.fst))
  | _ => .error (.typeError "can only join an iterable")

mutual

/-- `repr(x)` of a JSON-shaped value, as CPython prints it (string
escaping inside `repr` of a `str` is not modelled; no claim depends on
it). -/
def pyRepr : Json → String
  | .null => "None"
  | .bool b => if b then "True" else "False"
  | .num n => toString n
  | .str s => "\x27" ++ s ++ "\x27"
  | .arr xs => "[" ++ joinSep ", " (pyReprList xs) ++ "]"
  | .obj fs => "\x7b" ++ joinSep ", " (pyReprFields fs) ++ "\x7d"

def pyReprList : List Json → List String
  | [] => []
  | x :: xs => pyRepr x :: pyReprList xs

def pyReprFields : List (String × Json) → List String
  | [] => []
  | (k, v) :: fs => ("\x27" ++ k ++ "\x27: " ++ pyRepr v) :: pyReprFields fs

end

/-- `str(x)` / f-string interpolation of a JSON-shaped value. -/
def pyStr : Json → String
  | .str s => s
  | j => pyRepr j

/-! ## Model of `json.loads`

A recursive-descent parser over the character list, modelling the subset
of `json.loads` the pipeline's replies exercise: objects, arrays,
strings with the single-character escapes, integers, `true`/`false`/
`null`, and the exact JSON whitespace set.  Fractional/exponent numbers
and `\u` escapes are outside the modelled subset and are rejected. -/

/-- The four whitespace characters the JSON grammar allows. -/
def isJsonWs (c : Char) : Bool :=
  c = ' ' || c = '\t' || c = '\n' || c = '\r'

def skipWs (cs : List Char) : List Char := cs.dropWhile isJsonWs

/-- Single-character string escapes of JSON (the `\uXXXX` form is
outside the modelled subset). -/
def escChar (e : Char) : Option Char :=
  if e = '"' then some '"'
  else if e = '\\' then some '\\'
  else if e = '/' then some '/'
  else if e = 'n' then some '\n'
  else if e = 't' then some '\t'
  else if e = 'r' then some '\r'
  else if e = 'b' then some (Char.ofNat 8)
  else if e = 'f' then some (Char.ofNat 12)
  else none

/-- Parse the body of a JSON string after the opening quote, up to and
including the closing quote.  Raw control characters are rejected, as in
strict-mode `json.loads`. -/
def parseStringBody : List Char → Option (List Char × List Char)
  | [] => none
  | '"' :: rest => some ([], rest)
  | '\\' :: rest =>
      match rest with
      | [] => none
      | e :: rest2 =>
          match escChar e with
          | some c =>
              (parseStringBody rest2).map (fun p => (c :: p.1, p.2))
          | none => none
  | c :: rest =>
      if c.toNat < 32 then none
      else (parseStringBody rest).map (fun p => (c :: p.1, p.2))

/-- Parse a JSON integer (sign, digits, no leading zero, and no
fractional/exponent continuation, which are outside the modelled
subset). -/
def parseIntNum (cs : List Char) : Option (Json × List Char) :=
  let (neg, body) :=
    match cs with
    | '-' :: rest => (true, rest)
    | _ => (false, cs)
  let digits := body.takeWhile Char.isDigit
  let rest := body.dropWhile Char.isDigit
  if digits.isEmpty then none
  else if digits.length > 1 && digits.headD '0' = '0' then none
  else
    match rest with
    | '.' :: _ => none
    | 'e' :: _ => none
    | 'E' :: _ => none
    | _ =>
        let n : Int :=
          digits.foldl (fun acc c => acc * 10 + (c.toNat - 48 : Int)) 0
        some (.num (if neg then -n else n), rest)

mutual

/-- Parse one JSON value, skipping leading whitespace. -/
def parseValue : Nat → List Char → Option (Json × List Char)
  | 0, _ => none
  | fuel + 1, cs =>
      match skipWs cs with
      | [] => none
      | '"' :: rest =>
          (parseStringBody rest).map (fun p => (.str (String.mk p.1), p.2))
      | 't' :: 'r' :: 'u' :: 'e' :: rest => some (.bool true, rest)
      | 'f' :: 'a' :: 'l' :: 's' :: 'e' :: rest => some (.bool false, rest)
      | 'n' :: 'u' :: 'l' :: 'l' :: rest => some (.null, rest)
      | '[' :: rest =>
          match skipWs rest with
          | ']' :: rest2 => some (.arr [], rest2)
          | rest2 =>
              (parseArrayRest fuel rest2).map (fun p => (.arr p.1, p.2))
      | '{' :: rest =>
          match skipWs rest with
          | '}' :: rest2 => some (.obj [], rest2)
          | rest2 =>
              (parseObjRest fuel rest2).map
                (fun p =>
                  (.obj (p.1.foldl (fun acc kv => insertKey acc kv.1 kv.2) []),
                   p.2))
      | c :: rest =>
          if c = '-' || c.isDigit then parseIntNum (c :: rest) else none

/-- Parse the remaining comma-separated items of an array, positioned at
the first item, consuming the closing bracket. -/
def parseArrayRest : Nat → List Char → Option (List Json × List Char)
  | 0, _ => none
  | fuel + 1, cs =>
      match parseValue fuel cs with
      | none => none
      | some (v, r) =>
          match skipWs r with
          | ',' :: r2 =>
              (parseArrayRest fuel r2).map (fun p => (v :: p.1, p.2))
          | ']' :: r2 => some ([v], r2)
          | _ => none

/-- Parse the remaining comma-separated members of an object, positioned
at the first key, consuming the closing brace; pairs are returned in
parse order. -/
def parseObjRest :
    Nat → List Char → Option (List (String × Json) × List Char)
  | 0, _ => none
  | fuel + 1, cs =>
      match skipWs cs with
      | '"' :: r =>
          match parseStringBody r with
          | none => none
          | some (k, r1) =>
              match skipWs r1 with
              | ':' :: r2 =>
                  match parseValue fuel r2 with
                  | none => none
                  | some (v, r3) =>
                      match skipWs r3 with
                      | ',' :: r4 =>
                          (parseObjRest fuel r4).map
                            (fun p => ((String.mk k, v) :: p.1, p.2))
                      | '}' :: r4 => some ([(String.mk k, v)], r4)
                      | _ => none
              | _ => none
      | _ => none

end

/-- `json.loads` on a whole document: one value, then only trailing
whitespace ("Extra data" otherwise).  All failures are
`json.JSONDecodeError`, a `ValueError` subclass. -/
def jsonLoads (s : String) : Except PyError Json :=
  let cs := s.data
  match parseValue (2 * cs.length + 2) cs with
  | some (v, rest) =>
      if (skipWs rest).isEmpty then .ok v
      else .error (.jsonDecodeError "Extra data")
  | none => .error (.jsonDecodeError "Expecting value")

/-! ## Model of the brace-extraction recovery regex

Every stage recovers from a failed direct parse with
`re.search(r'\x7b[^\x7b\x7d]*(?:\x7b[^\x7b\x7d]*\x7d[^\x7b\x7d]*)*\x7d', body)`:
an opening brace, non-brace characters, then any number of singly-nested
brace blocks each followed by non-brace characters, then a closing
brace.  The pattern is deterministic at a fixed start (its starred parts
are bounded by brace characters, so no backtracking alternative exists),
which the character-level scan below implements; the search tries start
positions left to right. -/

def isBrace (c : Char) : Bool := c = '{' || c = '}'

/-- Continue a match attempt after the initial opening brace.  `inner`
records whether the scan is inside a singly-nested block.  Returns the
matched characters (up to and including the final closing brace). -/
def scanMatch : Bool → List Char → Option (List Char)
  | false, [] => none
  | false, c :: cs =>
      if c = '}' then some [c]
      else if c = '{' then (scanMatch true cs).map (c :: ·)
      else (scanMatch false cs).map (c :: ·)
  | true, [] => none
  | true, c :: cs =>
      if c = '}' then (scanMatch false cs).map (c :: ·)
      else if c = '{' then none
      else (scanMatch true cs).map (c :: ·)

/-- Leftmost match of the recovery pattern: attempt a match at each
opening brace, moving right on failure. -/
def regexSearchChars : List Char → Option (List Char)
  | [] => none
  | c :: cs =>
      if c = '{' then
        match scanMatch false cs with
        | some m => some (c :: m)
        | none => regexSearchChars cs
      else regexSearchChars cs

/-- `json_match.group()` of the recovery regex, or `None`. -/
def extractJson (s : String) : Option String :=
  (regexSearchChars s.data).map String.mk

/-- Per-stage reply parsing: direct `json.loads` first; on
`JSONDecodeError`, search for a brace-delimited substring and parse that
(a failure of this second parse is an uncaught `JSONDecodeError`); with
no regex match, raise the stage's `ValueError`. -/
def parseLLMReply (stageMsg : String) (content : String) :
    Except PyError Json :=
  match jsonLoads content with
  | .ok r => .ok r
  | .error _ =>
      match extractJson content with
      | some sub => jsonLoads sub
      | none => .error (.valueError stageMsg)

/-! ## `app/schemas/symptoms.py` -/

/-- The closed urgency enumeration `UrgencyLevel(str, Enum)`. -/
inductive UrgencyLevel where
  | emergency
  | urgent
  | routine
  | non_urgent
deriving Repr, DecidableEq

/-- The `.value` of each member. -/
def UrgencyLevel.value : UrgencyLevel → String
  | .emergency => "emergency"
  | .urgent => "urgent"
  | .routine => "routine"
  | .non_urgent => "non-urgent"

/-- `UrgencyLevel(v)` enum construction: maps the value onto a member or
raises `ValueError: <repr(v)> is not a valid UrgencyLevel` (the CPython
enum message, which embeds the offending value). -/
def urgencyLevelOf (v : Json) : Except PyError UrgencyLevel :=
  match v with
  | .str "emergency" => .ok .emergency
  | .str "urgent" => .ok .urgent
  | .str "routine" => .ok .routine
  | .str "non-urgent" => .ok .non_urgent
  | _ => .error (.valueError (pyRepr v ++ " is not a valid UrgencyLevel"))

/-! ## `app/graphs/symptom_workflow.py`

The `SymptomState` TypedDict is threaded through four LangGraph nodes
that run strictly in sequence.  Derived fields are `Option`-valued:
`none` models the key being absent from the state dict (reading an
absent key raises `KeyError`).  Values parsed out of a reply are stored
untyped, as the Python code stores them.

Each node is a function of the current state and the reasoning service's
reply text for that stage; the reply is left abstract since the service
is an external collaborator.  F-string interpolation of the
`UrgencyLevel` member is version-dependent in Python (the bare value
before 3.11, `UrgencyLevel.<NAME>` from 3.11 on), so the message
builders take the interpolation function `render` as a parameter. -/

structure SymptomState where
  symptoms : String
  age : Option Int
  sex : Option String
  duration : Option String
  existing_conditions : List String
  current_medications : List String
  extracted_symptoms : Option Json := none
  urgency_assessment : Option Json := none
  urgency_level : Option UrgencyLevel := none
  red_flags : Option Json := none
  recommended_specialist : Option Json := none
  reasoning : Option Json := none
  suggested_preparations : Option Json := none
  suggested_tests : Option Json := none
  home_care_tips : Option Json := none
deriving Repr

/-- `state[key]` for a derived field: `KeyError` when the key has not
been written yet. -/
def stateGet (o : Option Json) (key : String) : Except PyError Json :=
  match o with
  | some v => .ok v
  | none => .error (.keyError key)

/-- `_build_patient_context`: each input field is included only when
truthy (so `age == 0`, an empty `sex` string and empty lists are all
skipped). -/
def buildPatientContext (st : SymptomState) : String :=
  let context_parts : List String :=
    (match st.age with
     | some a => if a != 0 then ["Age: " ++ toString a] else []
     | none => []) ++
    (match st.sex with
     | some s => if s.length != 0 then ["Sex: " ++ s] else []
     | none => []) ++
    (if !st.existing_conditions.isEmpty then
       ["Existing conditions: " ++ joinSep ", " st.existing_conditions]
     else []) ++
    (if !st.current_medications.isEmpty then
       ["Current medications: " ++ joinSep ", " st.current_medications]
     else [])
  if !context_parts.isEmpty then
    "Patient context:\n" ++ joinSep "\n" context_parts
  else "No additional patient context provided."

/-- `state.get('duration', 'not specified')`: the `duration` key is
always present in the initial state (possibly holding `None`), so the
default never fires and `None` interpolates as `"None"`. -/
def durationStr (st : SymptomState) : String :=
  match st.duration with
  | some d => d
  | none => "None"

/-- The stage-1 user message (pure string building; cannot fail). -/
def stage1Message (st : SymptomState) : String :=
  buildPatientContext st ++ "\n\nSymptoms described: " ++ st.symptoms ++
  "\n\nExtract a list of distinct symptoms. Respond in JSON format:\n\x7b\n  \"extracted_symptoms\": [\"symptom 1\", \"symptom 2\", ...]\n\x7d"

/-- The stage-2 user message; joining `state["extracted_symptoms"]` can
raise. -/
def stage2Message (st : SymptomState) : Except PyError String := do
  let es ← stateGet st.extracted_symptoms "extracted_symptoms"
  let symptoms_list ← pyJoin ", " es
  .ok (buildPatientContext st ++ "\n\nSymptoms: " ++ symptoms_list ++
    "\nDuration: " ++ durationStr st ++
    "\n\nAssess urgency and identify red flags. Respond in JSON:\n\x7b\n  \"urgency_level\": \"emergency|urgent|routine|non-urgent\",\n  \"urgency_assessment\": \"Brief explanation of urgency decision\",\n  \"red_flags\": [\"red flag 1\", \"red flag 2\", ...] or []\n\x7d")

/-- The stage-3 user message: embeds the joined extracted symptoms, the
interpolated urgency member, and either the joined red flags (when the
`red_flags` value is truthy) or a fixed no-red-flags line. -/
def stage3Message (render : UrgencyLevel → String) (st : SymptomState) :
    Except PyError String := do
  let es ← stateGet st.extracted_symptoms "extracted_symptoms"
  let symptoms_list ← pyJoin ", " es
  let u ←
    match st.urgency_level with
    | some u => Except.ok u
    | none => Except.error (.keyError "urgency_level")
  let rf ← stateGet st.red_flags "red_flags"
  let rfLine ←
    if rf.truthy then do
      let joined ← pyJoin ", " rf
      Except.ok ("Red flags: " ++ joined)
    else Except.ok "No red flags identified"
  .ok (buildPatientContext st ++ "\n\nSymptoms: " ++ symptoms_list ++
    "\nUrgency: " ++ render u ++ "\n" ++ rfLine ++
    "\n\nRecommend specialist and explain why. Respond in JSON:\n\x7b\n  \"recommended_specialist\": \"Type of specialist or provider\",\n  \"reasoning\": \"Clear explanation of why this specialist is appropriate\"\n\x7d")

/-- The stage-4 user message: embeds the joined extracted symptoms, the
interpolated specialist value and the interpolated urgency member. -/
def stage4Message (render : UrgencyLevel → String) (st : SymptomState) :
    Except PyError String := do
  let es ← stateGet st.extracted_symptoms "extracted_symptoms"
  let symptoms_list ← pyJoin ", " es
  let sp ← stateGet st.recommended_specialist "recommended_specialist"
  let u ←
    match st.urgency_level with
    | some u => Except.ok u
    | none => Except.error (.keyError "urgency_level")
  .ok (buildPatientContext st ++ "\n\nSymptoms: " ++ symptoms_list ++
    "\nSpecialist: " ++ pyStr sp ++ "\nUrgency: " ++ render u ++
    "\n\nProvide practical guidance. Respond in JSON:\n\x7b\n  \"suggested_preparations\": [\"preparation 1\", \"preparation 2\", ...],\n  \"suggested_tests\": [\"test 1\", \"test 2\", ...],\n  \"home_care_tips\": [\"tip 1\", \"tip 2\", ...] or []\n\x7d")

/-- `_extract_symptoms`: parse the reply, then store
`result.get("extracted_symptoms", [])` without any type check. -/
def extractSymptomsNode (st : SymptomState) (reply : String) :
    Except PyError SymptomState := do
  let _msg := stage1Message st
  let result ← parseLLMReply "Failed to parse symptom extraction response" reply
  let es ← result.pyGet "extracted_symptoms" (.arr [])
  .ok { st with extracted_symptoms := some es }

/-- `_assess_urgency`: the request message is built before the service
call (so joining a malformed `extracted_symptoms` aborts here); the
reply must carry `urgency_level` mapping onto the enumeration and
`urgency_assessment`; `red_flags` defaults to `[]`. -/
def assessUrgencyNode (st : SymptomState) (reply : String) :
    Except PyError SymptomState := do
  let _msg ← stage2Message st
  let result ← parseLLMReply "Failed to parse urgency assessment response" reply
  let ulv ← result.getItem "urgency_level"
  let u ← urgencyLevelOf ulv
  let ua ← result.getItem "urgency_assessment"
  let rf ← result.pyGet "red_flags" (.arr [])
  .ok { st with
          urgency_level := some u
          urgency_assessment := some ua
          red_flags := some rf }

/-- `_route_specialist`: the reply must carry `recommended_specialist`
and `reasoning` (a `KeyError` otherwise); no type check is applied. -/
def routeSpecialistNode (render : UrgencyLevel → String)
    (st : SymptomState) (reply : String) : Except PyError SymptomState := do
  let _msg ← stage3Message render st
  let result ← parseLLMReply "Failed to parse specialist routing response" reply
  let rs ← result.getItem "recommended_specialist"
  let rn ← result.getItem "reasoning"
  .ok { st with recommended_specialist := some rs, reasoning := some rn }

/-- `_generate_recommendations`: all three output fields default to `[]`
when absent; no type check is applied. -/
def generateRecommendationsNode (render : UrgencyLevel → String)
    (st : SymptomState) (reply : String) : Except PyError SymptomState := do
  let _msg ← stage4Message render st
  let result ← parseLLMReply "Failed to parse recommendations response" reply
  let sp ← result.pyGet "suggested_preparations" (.arr [])
  let stests ← result.pyGet "suggested_tests" (.arr [])
  let hc ← result.pyGet "home_care_tips" (.arr [])
  .ok { st with
          suggested_preparations := some sp
          suggested_tests := some stests
          home_care_tips := some hc }

/-- `SymptomWorkflow.run`: the compiled LangGraph chain
`extract_symptoms → assess_urgency → route_specialist →
generate_recommendations → END`, strictly sequential, each node seeing
the state the previous one returned; the replies `r1..r4` stand for the
four reasoning-service round trips. -/
def runPipeline (render : UrgencyLevel → String) (st0 : SymptomState)
    (r1 r2 r3 r4 : String) : Except PyError SymptomState := do
  let s1 ← extractSymptomsNode st0 r1
  let s2 ← assessUrgencyNode s1 r2
  let s3 ← routeSpecialistNode render s2 r3
  generateRecommendationsNode render s3 r4

/-! ## `app/api/routes/symptoms.py` and request/response validation -/

/-- The validated `SymptomRouteRequest` (pydantic model). -/
structure SymptomRouteRequest where
  symptoms : String
  age : Option Int
  sex : Option String
  duration : Option String
  existing_conditions : Option (List String)
  current_medications : Option (List String)
deriving Repr

/-- The raw inbound request body before pydantic validation; `none`
models an absent (or JSON-null) field. -/
structure RawSymptomRequest where
  symptoms : Option String
  age : Option Int
  sex : Option String
  duration : Option String
  existing_conditions : Option (List String)
  current_medications : Option (List String)
deriving Repr

/-- An `HTTPException`-shaped outcome: status code plus detail. -/
structure HttpError where
  status : Nat
  detail : String
deriving Repr, DecidableEq

/-- FastAPI/pydantic request validation: `symptoms` is required with
`min_length=10`; `age`, when present, must satisfy `ge=0, le=120`.
Pydantic reports every field error in one 422 response; the model
returns the first, which preserves acceptance and the status code. -/
def validateSymptomRequest (raw : RawSymptomRequest) :
    Except HttpError SymptomRouteRequest :=
  match raw.symptoms with
  | none => .error ⟨422, "symptoms: Field required"⟩
  | some s =>
      if s.length < 10 then
        .error ⟨422, "symptoms: String should have at least 10 characters"⟩
      else
        match raw.age with
        | some a =>
            if a < 0 then
              .error ⟨422, "age: Input should be greater than or equal to 0"⟩
            else if 120 < a then
              .error ⟨422, "age: Input should be less than or equal to 120"⟩
            else
              .ok ⟨s, some a, raw.sex, raw.duration,
                   raw.existing_conditions, raw.current_medications⟩
        | none =>
            .ok ⟨s, none, raw.sex, raw.duration,
                 raw.existing_conditions, raw.current_medications⟩

/-- The `initial_state` dict the route builds: list fields go through
`x or []`, so `None` becomes the empty list. -/
def initialStateOf (req : SymptomRouteRequest) : SymptomState :=
  { symptoms := req.symptoms
    age := req.age
    sex := req.sex
    duration := req.duration
    existing_conditions := req.existing_conditions.getD []
    current_medications := req.current_medications.getD [] }

/-- The validated `SymptomRouteResponse` (pydantic model); the
constant-valued `disclaimer` and `processed_at` fields are omitted. -/
structure SymptomRouteResponse where
  recommended_specialist : String
  urgency_level : UrgencyLevel
  reasoning : String
  red_flags : List String
  suggested_preparations : List String
  suggested_tests : List String
  home_care_tips : List String
deriving Repr, DecidableEq

/-- Pydantic `str` field validation (no coercion from non-strings in lax
mode); `ValidationError` subclasses `ValueError`. -/
def asStr (j : Json) : Except PyError String :=
  match j with
  | .str s => .ok s
  | _ => .error (.validationError "validation error for SymptomRouteResponse")

/-- Pydantic `List[str]` field validation. -/
def asStrList (j : Json) : Except PyError (List String) :=
  match j with
  | .arr xs =>
      match allStrings xs with
      | some ss => .ok ss
      | none =>
          .error (.validationError "validation error for SymptomRouteResponse")
  | _ => .error (.validationError "validation error for SymptomRouteResponse")

/-- `route_symptoms`: build the initial state, run the workflow, read
the result fields, and validate them into a `SymptomRouteResponse`.  A
`ValueError` (including `JSONDecodeError` and pydantic
`ValidationError`) maps to HTTP 400 with `str(e)` as the detail; every
other exception maps to HTTP 500 with the fixed generic detail. -/
def routeSymptoms (render : UrgencyLevel → String)
    (req : SymptomRouteRequest) (r1 r2 r3 r4 : String) :
    Except HttpError SymptomRouteResponse :=
  let attempt : Except PyError SymptomRouteResponse := do
    let result ← runPipeline render (initialStateOf req) r1 r2 r3 r4
    let rsJ ← stateGet result.recommended_specialist "recommended_specialist"
    let u ←
      match result.urgency_level with
      | some u => Except.ok u
      | none => Except.error (.keyError "urgency_level")
    let rnJ ← stateGet result.reasoning "reasoning"
    let rfJ := result.red_flags.getD (.arr [])
    let spJ := result.suggested_preparations.getD (.arr [])
    let stJ := result.suggested_tests.getD (.arr [])
    let hcJ := result.home_care_tips.getD (.arr [])
    let rs ← asStr rsJ
    let rn ← asStr rnJ
    let rf ← asStrList rfJ
    let sp ← asStrList spJ
    let stl ← asStrList stJ
    let hc ← asStrList hcJ
    Except.ok ⟨rs, u, rn, rf, sp, stl, hc⟩
  match attempt with
  | .ok resp => .ok resp
  | .error e =>
      if e.isValueError then .error ⟨400, e.message⟩
      else .error ⟨500, "Failed to process symptoms. Please try again."⟩

/-- The whole endpoint: request validation happens in the framework
before the route handler (and hence the pipeline) runs. -/
def fullRoute (render : UrgencyLevel → String) (raw : RawSymptomRequest)
    (r1 r2 r3 r4 : String) : Except HttpError SymptomRouteResponse := do
  let req ← validateSymptomRequest raw
  routeSymptoms render req r1 r2 r3 r4

/-! ## `app/services/doctor_finder.py`

The doctor search issues its registry lookup through
`self.external_api.search_doctors` (the NPPES client), which is the
external-collaborator boundary; the lookup function is a parameter and
every query passed to it is logged, so "how many lookups a search
issues" is a provable statement.  The per-record conversion of a
non-empty result list (lines 306–356: schema parsing with a skip-on-
failure loop, haversine distances on estimated coordinates, sorting and
limiting) involves machine floats and is irrelevant to every claim, so
it is a parameter as well; theorems quantify over it. -/

/-- The parameters `doctor_finder` passes to a registry lookup. -/
structure DoctorQuery where
  postal_code : String
  specialization : Option String
  state : String
  limit : Nat
deriving Repr, DecidableEq

/-- The validated `DoctorSearchRequest` (pydantic model); `radius_km`
is modelled as a rational. -/
structure DoctorSearchRequest where
  pincode : String
  specialization : Option String
  radius_km : Option Rat
  limit : Option Nat

/-- The `DoctorSearchResponse` fields the claims constrain; the
user-location coordinates (floats estimated from the ZIP) and the
timestamp are omitted. -/
structure DoctorSearchResponse (δ : Type) where
  user_address : String
  user_pincode : String
  search_radius_km : Rat
  specialization : Option String
  total_doctors_found : Nat
  doctors : List δ

/-- Python `x or default` on an optional numeric field (`None` and a
zero value both fall back to the default). -/
def pyOrRat (o : Option Rat) (d : Rat) : Rat :=
  match o with
  | some r => if r = 0 then d else r
  | none => d

/-- Python `x or default` on an optional integer field. -/
def pyOrNat (o : Option Nat) (d : Nat) : Nat :=
  match o with
  | some n => if n = 0 then d else n
  | none => d

/-- `geocode_pincode`: looks the code up in `PINCODE_COORDINATES`, which
the source sets to the empty dict, so the lookup always misses. -/
def geocodePincode (_pincode : String) : Option (String × String) := none

/-- `_guess_state_from_zip`: map the first two digits of the ZIP code
onto a state abbreviation through the hard-coded prefix table, with
`"CA"` as the fallback. -/
def guessStateFromZip (zip : String) : String :=
  if zip.length < 2 then "CA"
  else
    let two := zip.data.take 2
    let p : Nat :=
      if two.all Char.isDigit then
        two.foldl (fun a c => a * 10 + (c.toNat - 48)) 0
      else 0
    if p ≤ 6 then "PR"
    else if p ≤ 9 then "NJ"
    else if p ≤ 14 then "NY"
    else if p ≤ 19 then "PA"
    else if p ≤ 20 then "DC"
    else if p ≤ 21 then "MD"
    else if p ≤ 24 then "VA"
    else if p ≤ 27 then "NC"
    else if p ≤ 29 then "SC"
    else if p ≤ 31 then "GA"
    else if p ≤ 34 then "FL"
    else if p ≤ 36 then "AL"
    else if p ≤ 38 then "TN"
    else if p ≤ 39 then "MS"
    else if p ≤ 42 then "KY"
    else if p ≤ 45 then "OH"
    else if p ≤ 47 then "IN"
    else if p ≤ 49 then "MI"
    else if p ≤ 51 then "IA"
    else if p ≤ 52 then "SD"
    else if p ≤ 54 then "WI"
    else if p ≤ 56 then "MN"
    else if p ≤ 57 then "SD"
    else if p ≤ 59 then "ND"
    else if p ≤ 62 then "IL"
    else if p ≤ 64 then "MO"
    else if p ≤ 65 then "MT"
    else if p ≤ 67 then "KS"
    else if p ≤ 69 then "NE"
    else if p ≤ 71 then "LA"
    else if p ≤ 74 then "AR"
    else if p ≤ 79 then "TX"
    else if p ≤ 81 then "CO"
    else if p ≤ 82 then "WY"
    else if p ≤ 83 then "ID"
    else if p ≤ 84 then "UT"
    else if p ≤ 86 then "AZ"
    else if p ≤ 88 then "NM"
    else if p ≤ 89 then "NV"
    else if p ≤ 96 then "CA"
    else if p ≤ 97 then "OR"
    else if p ≤ 99 then "WA"
    else "CA"

/-- `_search_with_external_api`: build the single query (the requested
ZIP plus the guessed state, with `min(limit * 2, 200)` as the API
limit), issue it, and return an empty list when the lookup came back
empty; a non-empty result list goes through the conversion/sort/limit
post-processing.  The second component logs every query issued. -/
def searchWithRegistry {δ : Type} (lookup : DoctorQuery → List Json)
    (postProcess : List Json → Nat → List δ) (pincode : String)
    (specialization : Option String) (limit : Nat) :
    List δ × List DoctorQuery :=
  let q : DoctorQuery :=
    ⟨pincode, specialization, guessStateFromZip pincode, min (limit * 2) 200⟩
  let api_results := lookup q
  if api_results.isEmpty then ([], [q])
  else (postProcess api_results limit, [q])

/-- `DoctorFinderService.search_doctors`: geocoding always misses (the
coordinate dict is empty), so the estimated-location branch runs and
the address is `"ZIP <pincode>, <state>"`; defaults are applied to the
radius and limit; the registry search runs once and the response
reports the returned doctors and their count. -/
def searchDoctorsService {δ : Type} (lookup : DoctorQuery → List Json)
    (postProcess : List Json → Nat → List δ)
    (request : DoctorSearchRequest) :
    DoctorSearchResponse δ × List DoctorQuery :=
  let state := guessStateFromZip request.pincode
  let address :=
    match geocodePincode request.pincode with
    | some (city, st) => city ++ ", " ++ st
    | none => "ZIP " ++ request.pincode ++ ", " ++ state
  let radius_km := pyOrRat request.radius_km 10
  let limit := pyOrNat request.limit 50
  let found :=
    searchWithRegistry lookup postProcess request.pincode
      request.specialization limit
  ({ user_address := address
     user_pincode := request.pincode
     search_radius_km := radius_km
     specialization := request.specialization
     total_doctors_found := found.1.length
     doctors := found.1 }, found.2)

/-- No character of the list is a brace. -/
def braceFree (l : List Char) : Prop := ∀ c ∈ l, isBrace c = false

instance (l : List Char) : Decidable (braceFree l) :=
  List.decidableBAll _ l

/-- The text of a sequence of singly-nested brace blocks, each block a
brace-free body followed by brace-free trailing text: the inner
structure the recovery regex can traverse. -/
def blockChars : List (List Char × List Char) → List Char
  | [] => []
  | (b, a) :: rest => '{' :: (b ++ '}' :: (a ++ blockChars rest))

/-- The `Json` value is a list whose items are all strings. -/
def isStrListB : Json → Bool
  | .arr xs => (allStrings xs).isSome
  | _ => false

/-- The error kinds §7 of the spec groups under
`MalformedUpstreamResponse`: the reply was not parseable even after
recovery, or a required field was missing or failed to map onto its
type/enumeration. -/
def isMalformedUpstream : PyError → Bool
  | .valueError _ => true
  | .jsonDecodeError _ => true
  | .keyError _ => true
  | _ => false

/-- A concrete initial pipeline state used by witnesses and
counterexamples. -/
def sampleState : SymptomState :=
  { symptoms := "persistent cough for two weeks", age := some 35,
    sex := some "female", duration := some "2 weeks",
    existing_conditions := ["asthma"], current_medications := [] }

/-- `sampleState` after a well-formed stage 1. -/
def sampleStateS1 : SymptomState :=
  { sampleState with
      extracted_symptoms := some (.arr [.str "cough", .str "fever"]) }

/-- A well-formed stage-1 reply. -/
def wf1 : String := "\x7b\"extracted_symptoms\": [\"cough\"]\x7d"

/-- A well-formed stage-2 reply. -/
def wf2 : String :=
  "\x7b\"urgency_level\": \"routine\", \"urgency_assessment\": \"ok\", \"red_flags\": []\x7d"

/-- A well-formed stage-3 reply. -/
def wf3 : String :=
  "\x7b\"recommended_specialist\": \"Primary Care Physician\", \"reasoning\": \"fits\"\x7d"

/-- A stage-4 reply whose `suggested_tests` is the number 7 rather than
a list of strings. -/
def badTests4 : String :=
  "\x7b\"suggested_preparations\": [], \"suggested_tests\": 7, \"home_care_tips\": []\x7d"

/-- The validated request used by route-level scenarios. -/
def sampleRequest : SymptomRouteRequest :=
  ⟨"persistent cough for two weeks", some 35, some "female", some "2 weeks",
   some ["asthma"], some []⟩

/-- A stage-2-complete state whose `urgency_assessment` carries a marker
string that appears nowhere in the prompts. -/
def c6State : SymptomState :=
  { sampleStateS1 with
      urgency_level := some UrgencyLevel.urgent,
      urgency_assessment := some (.str "XYZZY"),
      red_flags := some (.arr [.str "chest pain"]) }

/-- `c6State` after a stage 3 whose `reasoning` carries a marker. -/
def c6State4 : SymptomState :=
  { c6State with
      recommended_specialist := some (.str "Cardiologist"),
      reasoning := some (.str "PLUGH") }

/-! ## Helper notions and lemmas -/

/-- Substring occurrence of `needle` in a character list. -/
def occursB (needle : List Char) : List Char → Bool
  | [] => needle.isEmpty
  | c :: t => needle.isPrefixOf (c :: t) || occursB needle t

/-- `needle` occurs as a contiguous substring of `hay`. -/
def strOccurs (needle hay : String) : Prop :=
  occursB needle.data hay.data = true

theorem occursB_nil_needle (l : List Char) : occursB [] l = true := by
  cases l <;> simp [occursB, List.isPrefixOf]

theorem occursB_append_right (n a b : List Char)
    (h : occursB n b = true) : occursB n (a ++ b) = true := by
  induction a with
  | nil => simpa using h
  | cons c t ih => simp [occursB, ih]

theorem occursB_append_left (n a b : List Char)
    (h : occursB n a = true) : occursB n (a ++ b) = true := by
  induction a with
  | nil =>
      have : n = [] := by simpa [occursB] using h
      subst this
      exact occursB_nil_needle b
  | cons c t ih =>
      simp only [occursB, Bool.or_eq_true] at h
      simp only [List.cons_append, occursB, Bool.or_eq_true]
      rcases h with h1 | h2
      · left
        have hpre : n <+: c :: t := List.isPrefixOf_iff_prefix.mp h1
        exact List.isPrefixOf_iff_prefix.mpr
          (hpre.trans (List.prefix_append _ _))
      · right
        exact ih h2

theorem occursB_self (n : List Char) : occursB n n = true := by
  cases n with
  | nil => simp [occursB]
  | cons c t => simp [occursB, List.isPrefixOf_iff_prefix]

theorem strOccurs_append_left {n a : String} (b : String)
    (h : strOccurs n a) : strOccurs n (a ++ b) := by
  unfold strOccurs at h ⊢
  rw [String.data_append]
  exact occursB_append_left _ _ _ h

theorem strOccurs_append_right (a : String) {n b : String}
    (h : strOccurs n b) : strOccurs n (a ++ b) := by
  unfold strOccurs at h ⊢
  rw [String.data_append]
  exact occursB_append_right _ _ _ h

theorem strOccurs_self (n : String) : strOccurs n n :=
  occursB_self n.data



/-- Inversion of a successful `Except` bind. -/
theorem bind_ok_iff {ε α β : Type} (e : Except ε α) (f : α → Except ε β)
    (b : β) : (e >>= f = Except.ok b) ↔ ∃ a, e = .ok a ∧ f a = .ok b := by
  cases e <;> simp [Bind.bind, Except.bind]

/-- Reduction of a bind whose first component already succeeded. -/
theorem ok_bind {ε α β : Type} (a : α) (f : α → Except ε β) :
    (Except.ok a >>= f) = f a := rfl

/-- Success shape of stage 1: `extracted_symptoms` is written (with the
value `result.get("extracted_symptoms", [])` supplied) and every other
field of the state is untouched. -/
theorem extractSymptomsNode_ok {st st' : SymptomState} {r : String}
    (h : extractSymptomsNode st r = .ok st') :
    (∃ v, st'.extracted_symptoms = some v) ∧
    st'.symptoms = st.symptoms ∧ st'.age = st.age ∧ st'.sex = st.sex ∧
    st'.duration = st.duration ∧
    st'.existing_conditions = st.existing_conditions ∧
    st'.current_medications = st.current_medications ∧
    st'.urgency_assessment = st.urgency_assessment ∧
    st'.urgency_level = st.urgency_level ∧
    st'.red_flags = st.red_flags ∧
    st'.recommended_specialist = st.recommended_specialist ∧
    st'.reasoning = st.reasoning ∧
    st'.suggested_preparations = st.suggested_preparations ∧
    st'.suggested_tests = st.suggested_tests ∧
    st'.home_care_tips = st.home_care_tips := by
  unfold extractSymptomsNode at h
  simp only [bind_ok_iff, Except.ok.injEq] at h
  obtain ⟨result, hp, es, hg, h⟩ := h
  subst h
  simp

/-- Success shape of stage 2: `urgency_level`, `urgency_assessment` and
`red_flags` are written and every other field is untouched. -/
theorem assessUrgencyNode_ok {st st' : SymptomState} {r : String}
    (h : assessUrgencyNode st r = .ok st') :
    (∃ u, st'.urgency_level = some u) ∧
    (∃ v, st'.urgency_assessment = some v) ∧
    (∃ v, st'.red_flags = some v) ∧
    st'.symptoms = st.symptoms ∧ st'.age = st.age ∧ st'.sex = st.sex ∧
    st'.duration = st.duration ∧
    st'.existing_conditions = st.existing_conditions ∧
    st'.current_medications = st.current_medications ∧
    st'.extracted_symptoms = st.extracted_symptoms ∧
    st'.recommended_specialist = st.recommended_specialist ∧
    st'.reasoning = st.reasoning ∧
    st'.suggested_preparations = st.suggested_preparations ∧
    st'.suggested_tests = st.suggested_tests ∧
    st'.home_care_tips = st.home_care_tips := by
  unfold assessUrgencyNode at h
  simp only [bind_ok_iff, Except.ok.injEq] at h
  obtain ⟨msg, hm, result, hp, ulv, hu, u, hv, ua, ha, rf, hr, h⟩ := h
  subst h
  simp

/-- Success shape of stage 3: `recommended_specialist` and `reasoning`
are written and every other field is untouched. -/
theorem routeSpecialistNode_ok {render : UrgencyLevel → String}
    {st st' : SymptomState} {r : String}
    (h : routeSpecialistNode render st r = .ok st') :
    (∃ v, st'.recommended_specialist = some v) ∧
    (∃ v, st'.reasoning = some v) ∧
    st'.symptoms = st.symptoms ∧ st'.age = st.age ∧ st'.sex = st.sex ∧
    st'.duration = st.duration ∧
    st'.existing_conditions = st.existing_conditions ∧
    st'.current_medications = st.current_medications ∧
    st'.extracted_symptoms = st.extracted_symptoms ∧
    st'.urgency_assessment = st.urgency_assessment ∧
    st'.urgency_level = st.urgency_level ∧
    st'.red_flags = st.red_flags ∧
    st'.suggested_preparations = st.suggested_preparations ∧
    st'.suggested_tests = st.suggested_tests ∧
    st'.home_care_tips = st.home_care_tips := by
  unfold routeSpecialistNode at h
  simp only [bind_ok_iff, Except.ok.injEq] at h
  obtain ⟨msg, hm, result, hp, rs, hs, rn, hn, h⟩ := h
  subst h
  simp

/-- Success shape of stage 4: the three recommendation fields are
written and every other field is untouched. -/
theorem generateRecommendationsNode_ok {render : UrgencyLevel → String}
    {st st' : SymptomState} {r : String}
    (h : generateRecommendationsNode render st r = .ok st') :
    (∃ v, st'.suggested_preparations = some v) ∧
    (∃ v, st'.suggested_tests = some v) ∧
    (∃ v, st'.home_care_tips = some v) ∧
    st'.symptoms = st.symptoms ∧ st'.age = st.age ∧ st'.sex = st.sex ∧
    st'.duration = st.duration ∧
    st'.existing_conditions = st.existing_conditions ∧
    st'.current_medications = st.current_medications ∧
    st'.extracted_symptoms = st.extracted_symptoms ∧
    st'.urgency_assessment = st.urgency_assessment ∧
    st'.urgency_level = st.urgency_level ∧
    st'.red_flags = st.red_flags ∧
    st'.recommended_specialist = st.recommended_specialist ∧
    st'.reasoning = st.reasoning := by
  unfold generateRecommendationsNode at h
  simp only [bind_ok_iff, Except.ok.injEq] at h
  obtain ⟨msg, hm, result, hp, sp, h1, stests, h2, hc, h3, h⟩ := h
  subst h
  simp

/-! ## Claim theorems -/

/-- C4: for a reply body of the exact form `noise {"a":1} noise` the
direct JSON parse fails, the recovery pass extracts exactly the
substring `{"a":1}`, and the stage's parsing succeeds with the object
mapping "a" to 1. -/
theorem c4_recovery_concrete :
    jsonLoads "noise \x7b\"a\":1\x7d noise" =
      .error (.jsonDecodeError "Expecting value") ∧
    extractJson "noise \x7b\"a\":1\x7d noise" = some "\x7b\"a\":1\x7d" ∧
    parseLLMReply "Failed to parse symptom extraction response"
      "noise \x7b\"a\":1\x7d noise" = .ok (.obj [("a", .num 1)]) :=
  ⟨rfl, rfl, rfl⟩

/-- C3 counterexample: for a reply containing one balanced JSON object
of brace-nesting depth three, the recovery pass does not extract the
outermost balanced brace-delimited substring: it returns the inner
fragment `{"b":{"c":1}}` of `{"a":{"b":{"c":1}}}`, and the stage parse
therefore yields the inner object, not the whole one. -/
theorem c3_counterexample :
    extractJson "noise \x7b\"a\":\x7b\"b\":\x7b\"c\":1\x7d\x7d\x7d tail" =
      some "\x7b\"b\":\x7b\"c\":1\x7d\x7d" ∧
    (some "\x7b\"b\":\x7b\"c\":1\x7d\x7d" : Option String) ≠
      some "\x7b\"a\":\x7b\"b\":\x7b\"c\":1\x7d\x7d\x7d" ∧
    parseLLMReply "Failed to parse specialist routing response"
      "noise \x7b\"a\":\x7b\"b\":\x7b\"c\":1\x7d\x7d\x7d tail" =
      .ok (.obj [("b", .obj [("c", .num 1)])]) :=
  ⟨rfl, by decide, rfl⟩

/-- C9: a doctor search issues exactly one registry lookup — built from
the requested ZIP code, the requested specialization, the state guessed
from the ZIP, and `min(limit*2, 200)` — and never a widened follow-up
query; when that lookup returns zero results, the search returns a
response with an empty doctors list and `total_doctors_found = 0`. -/
theorem c9_zero_results_no_expansion {δ : Type}
    (lookup : DoctorQuery → List Json)
    (postProcess : List Json → Nat → List δ)
    (request : DoctorSearchRequest) :
    (searchDoctorsService lookup postProcess request).2 =
      [⟨request.pincode, request.specialization,
        guessStateFromZip request.pincode,
        min (pyOrNat request.limit 50 * 2) 200⟩] ∧
    (lookup ⟨request.pincode, request.specialization,
        guessStateFromZip request.pincode,
        min (pyOrNat request.limit 50 * 2) 200⟩ = [] →
      (searchDoctorsService lookup postProcess request).1.doctors = [] ∧
      (searchDoctorsService lookup postProcess
          request).1.total_doctors_found = 0) := by
  constructor
  · simp only [searchDoctorsService, searchWithRegistry, geocodePincode]
    split <;> rfl
  · intro hempty
    simp [searchDoctorsService, searchWithRegistry, geocodePincode, hempty]

/-- Witness for C9 at a concrete search request and an empty-result
registry double. -/
theorem c9_witness :
    (searchDoctorsService (fun _ => []) (fun _ _ => ([] : List Unit))
        ⟨"90210", none, none, none⟩).1.doctors = [] ∧
    (searchDoctorsService (fun _ => []) (fun _ _ => ([] : List Unit))
        ⟨"90210", none, none, none⟩).1.total_doctors_found = 0 :=
  (c9_zero_results_no_expansion (fun _ => []) (fun _ _ => ([] : List Unit))
      ⟨"90210", none, none, none⟩).2 rfl

/-- C10: the symptom-routing endpoint accepts a request only when
`symptoms` is at least 10 characters and a present `age` lies in
`[0, 120]`; a violating request is rejected with a 422 validation error
and the pipeline is never consulted (the outcome does not depend on the
reasoning replies); omitted `existing_conditions` and
`current_medications` become empty lists in the initial state. -/
theorem c10_request_validation (raw : RawSymptomRequest) :
    (∀ req, validateSymptomRequest raw = .ok req →
        10 ≤ req.symptoms.length ∧
        ∀ a, req.age = some a → 0 ≤ a ∧ a ≤ 120) ∧
    ((raw.symptoms = none ∨
        (∃ s, raw.symptoms = some s ∧ s.length < 10) ∨
        (∃ a, raw.age = some a ∧ (a < 0 ∨ 120 < a))) →
      ∃ e, validateSymptomRequest raw = .error e ∧ e.status = 422) ∧
    (∀ e render r1 r2 r3 r4, validateSymptomRequest raw = .error e →
        fullRoute render raw r1 r2 r3 r4 = .error e) ∧
    (∀ req, validateSymptomRequest raw = .ok req →
        (raw.existing_conditions = none →
          (initialStateOf req).existing_conditions = []) ∧
        (raw.current_medications = none →
          (initialStateOf req).current_medications = [])) := by
  refine ⟨?_, ?_, ?_, ?_⟩
  · intro req hok
    cases hs : raw.symptoms with
    | none => simp [validateSymptomRequest, hs] at hok
    | some s =>
        by_cases hlen : s.length < 10
        · simp [validateSymptomRequest, hs, hlen] at hok
        · cases ha : raw.age with
          | some a =>
              by_cases h0 : a < 0
              · simp [validateSymptomRequest, hs, hlen, ha, h0] at hok
              · by_cases h120 : (120 : Int) < a
                · simp [validateSymptomRequest, hs, hlen, ha, h0, h120] at hok
                · simp only [validateSymptomRequest, hs, hlen, ha, h0, h120,
                    if_false, Except.ok.injEq] at hok
                  subst hok
                  refine ⟨Nat.le_of_not_lt hlen, ?_⟩
                  intro a2 ha2
                  simp only [Option.some.injEq] at ha2
                  subst ha2
                  omega
          | none =>
              simp only [validateSymptomRequest, hs, ha, hlen, if_false,
                Except.ok.injEq] at hok
              subst hok
              exact ⟨Nat.le_of_not_lt hlen, by intro a ha2; cases ha2⟩
  · intro hbad
    rcases hbad with hnone | ⟨s, hs, hlen⟩ | ⟨a, ha, hrange⟩
    · exact ⟨⟨422, "symptoms: Field required"⟩,
        by simp [validateSymptomRequest, hnone], rfl⟩
    · exact ⟨⟨422, "symptoms: String should have at least 10 characters"⟩,
        by simp [validateSymptomRequest, hs, hlen], rfl⟩
    · cases hs : raw.symptoms with
      | none => exact ⟨⟨422, "symptoms: Field required"⟩,
          by simp [validateSymptomRequest, hs], rfl⟩
      | some s =>
          by_cases hlen : s.length < 10
          · exact ⟨⟨422, "symptoms: String should have at least 10 characters"⟩,
              by simp [validateSymptomRequest, hs, hlen], rfl⟩
          · rcases hrange with hvneg | hbig
            · exact ⟨⟨422, "age: Input should be greater than or equal to 0"⟩,
                by simp [validateSymptomRequest, hs, hlen, ha, hvneg], rfl⟩
            · by_cases hvneg : a < 0
              · exact ⟨⟨422, "age: Input should be greater than or equal to 0"⟩,
                  by simp [validateSymptomRequest, hs, hlen, ha, hvneg], rfl⟩
              · exact ⟨⟨422, "age: Input should be less than or equal to 120"⟩,
                  by simp [validateSymptomRequest, hs, hlen, ha, hvneg, hbig],
                  rfl⟩
  · intro e render r1 r2 r3 r4 herr
    unfold fullRoute
    simp [herr, Bind.bind, Except.bind]
  · intro req hok
    cases hs : raw.symptoms with
    | none => simp [validateSymptomRequest, hs] at hok
    | some s =>
        by_cases hlen : s.length < 10
        · simp [validateSymptomRequest, hs, hlen] at hok
        · cases ha : raw.age with
          | some a =>
              by_cases h0 : a < 0
              · simp [validateSymptomRequest, hs, hlen, ha, h0] at hok
              · by_cases h120 : (120 : Int) < a
                · simp [validateSymptomRequest, hs, hlen, ha, h0, h120] at hok
                · simp only [validateSymptomRequest, hs, ha, hlen, h0, h120,
                    if_false, Except.ok.injEq] at hok
                  subst hok
                  constructor
                  · intro hc; simp [initialStateOf, hc]
                  · intro hc; simp [initialStateOf, hc]
          | none =>
              simp only [validateSymptomRequest, hs, ha, hlen, if_false,
                Except.ok.injEq] at hok
              subst hok
              constructor
              · intro hc; simp [initialStateOf, hc]
              · intro hc; simp [initialStateOf, hc]

/-- Witness for C10: a request whose `symptoms` is 9 characters long is
rejected with a 422, and the endpoint outcome ignores the replies. -/
theorem c10_witness :
    (∃ e, validateSymptomRequest
        ⟨some "headache.", some 30, none, none, none, none⟩ = .error e ∧
        e.status = 422) ∧
    (∀ req, validateSymptomRequest
        ⟨some "a persistent cough", none, none, none, none, none⟩ =
          .ok req →
        (initialStateOf req).existing_conditions = []) := by
  constructor
  · exact (c10_request_validation
      ⟨some "headache.", some 30, none, none, none, none⟩).2.1
      (Or.inr (Or.inl ⟨"headache.", rfl, by decide⟩))
  · intro req hok
    exact ((c10_request_validation
      ⟨some "a persistent cough", none, none, none, none, none⟩).2.2.2
      req hok).1 rfl


/-- C1 counterexample: a pipeline run completes successfully although
the stage-4 reply supplied the number 7 for `suggested_tests`; the
final context's `suggested_tests` is that number, not a list of
strings, because no stage type-checks the list fields. -/
theorem c1_counterexample :
    (runPipeline UrgencyLevel.value sampleState wf1 wf2 wf3 badTests4).map
        (fun st => st.suggested_tests) = .ok (some (.num 7)) ∧
    isStrListB (.num 7) = false :=
  ⟨rfl, rfl⟩

/-- C1 (amended): on every successful pipeline run the final context
carries all nine derived fields of the four stages, with
`urgency_level` a member of the four-element enumeration; the list
fields are present but hold whatever JSON value the replies supplied —
the code performs no type validation on them. -/
theorem c1_success_fields (render : UrgencyLevel → String)
    (st0 st' : SymptomState) (r1 r2 r3 r4 : String)
    (h : runPipeline render st0 r1 r2 r3 r4 = .ok st') :
    (∃ v, st'.extracted_symptoms = some v) ∧
    (∃ u, st'.urgency_level = some u ∧
        u.value ∈ ["emergency", "urgent", "routine", "non-urgent"]) ∧
    (∃ v, st'.urgency_assessment = some v) ∧
    (∃ v, st'.red_flags = some v) ∧
    (∃ v, st'.recommended_specialist = some v) ∧
    (∃ v, st'.reasoning = some v) ∧
    (∃ v, st'.suggested_preparations = some v) ∧
    (∃ v, st'.suggested_tests = some v) ∧
    (∃ v, st'.home_care_tips = some v) := by
  unfold runPipeline at h
  simp only [bind_ok_iff] at h
  obtain ⟨s1, h1, s2, h2, s3, h3, h4⟩ := h
  unfold extractSymptomsNode at h1
  simp only [bind_ok_iff, Except.ok.injEq] at h1
  obtain ⟨res1, hp1, es, hg1, h1⟩ := h1
  subst h1
  unfold assessUrgencyNode at h2
  simp only [bind_ok_iff, Except.ok.injEq] at h2
  obtain ⟨m2, hm2, res2, hp2, ulv, hu2, u, hv2, ua, ha2, rf, hr2, h2⟩ := h2
  subst h2
  unfold routeSpecialistNode at h3
  simp only [bind_ok_iff, Except.ok.injEq] at h3
  obtain ⟨m3, hm3, res3, hp3, rs, hs3, rn, hn3, h3⟩ := h3
  subst h3
  unfold generateRecommendationsNode at h4
  simp only [bind_ok_iff, Except.ok.injEq] at h4
  obtain ⟨m4, hm4, res4, hp4, sp, hsp, stt, hst, hc, hhc, h4⟩ := h4
  subst h4
  refine ⟨⟨es, by simp⟩, ⟨u, by simp, ?_⟩, ⟨ua, by simp⟩, ⟨rf, by simp⟩,
    ⟨rs, by simp⟩, ⟨rn, by simp⟩, ⟨sp, by simp⟩, ⟨stt, by simp⟩,
    ⟨hc, by simp⟩⟩
  cases u <;> simp [UrgencyLevel.value]

/-- Witness for C1 at a concrete successful run. -/
theorem c1_witness :
    ∃ st', runPipeline UrgencyLevel.value sampleState wf1 wf2 wf3 badTests4 =
        .ok st' ∧
      ((∃ v, st'.extracted_symptoms = some v) ∧
       (∃ u, st'.urgency_level = some u ∧
          u.value ∈ ["emergency", "urgent", "routine", "non-urgent"]) ∧
       (∃ v, st'.urgency_assessment = some v) ∧
       (∃ v, st'.red_flags = some v) ∧
       (∃ v, st'.recommended_specialist = some v) ∧
       (∃ v, st'.reasoning = some v) ∧
       (∃ v, st'.suggested_preparations = some v) ∧
       (∃ v, st'.suggested_tests = some v) ∧
       (∃ v, st'.home_care_tips = some v)) :=
  ⟨_, rfl, c1_success_fields UrgencyLevel.value sampleState _ wf1 wf2 wf3
      badTests4 rfl⟩

/-- C5 counterexample: a stage-2 reply that parses to an object
containing both `urgency_level` and `urgency_assessment` and omitting
`red_flags` on which the stage nevertheless fails, because the
`urgency_level` value does not map onto the enumeration. -/
theorem c5_counterexample :
    jsonLoads "\x7b\"urgency_level\": \"banana\", \"urgency_assessment\": \"x\"\x7d" =
      .ok (.obj [("urgency_level", .str "banana"),
                 ("urgency_assessment", .str "x")]) ∧
    lookupKey [("urgency_level", Json.str "banana"),
               ("urgency_assessment", Json.str "x")] "red_flags" = none ∧
    assessUrgencyNode sampleStateS1
        "\x7b\"urgency_level\": \"banana\", \"urgency_assessment\": \"x\"\x7d" =
      .error (.valueError "\x27banana\x27 is not a valid UrgencyLevel") :=
  ⟨rfl, rfl, rfl⟩

/-- C5 (amended): a stage-2 reply parsing to an object that carries
`urgency_assessment` and an `urgency_level` mapping onto the
enumeration, but omits `red_flags`, makes the stage succeed with
`red_flags = []`; likewise stage 4 substitutes an empty list for each
omitted optional list field, and stage 1 for an omitted
`extracted_symptoms`. -/
theorem c5_missing_optional_defaults :
    (∀ (st : SymptomState) (reply msg : String)
        (fs : List (String × Json)) (ulv ua : Json) (u : UrgencyLevel),
      stage2Message st = .ok msg →
      parseLLMReply "Failed to parse urgency assessment response" reply =
        .ok (.obj fs) →
      lookupKey fs "urgency_level" = some ulv →
      urgencyLevelOf ulv = .ok u →
      lookupKey fs "urgency_assessment" = some ua →
      lookupKey fs "red_flags" = none →
      assessUrgencyNode st reply =
        .ok { st with urgency_level := some u, urgency_assessment := some ua,
                      red_flags := some (.arr []) }) ∧
    (∀ (render : UrgencyLevel → String) (st : SymptomState)
        (reply msg : String) (fs : List (String × Json)),
      stage4Message render st = .ok msg →
      parseLLMReply "Failed to parse recommendations response" reply =
        .ok (.obj fs) →
      lookupKey fs "suggested_preparations" = none →
      lookupKey fs "suggested_tests" = none →
      lookupKey fs "home_care_tips" = none →
      generateRecommendationsNode render st reply =
        .ok { st with suggested_preparations := some (.arr []),
                      suggested_tests := some (.arr []),
                      home_care_tips := some (.arr []) }) ∧
    (∀ (st : SymptomState) (reply : String) (fs : List (String × Json)),
      parseLLMReply "Failed to parse symptom extraction response" reply =
        .ok (.obj fs) →
      lookupKey fs "extracted_symptoms" = none →
      extractSymptomsNode st reply =
        .ok { st with extracted_symptoms := some (.arr []) }) := by
  refine ⟨?_, ?_, ?_⟩
  · intro st reply msg fs ulv ua u hm hp h1 hu h2 h3
    unfold assessUrgencyNode
    simp [hm, hp, Json.getItem, Json.pyGet, h1, hu, h2, h3,
      Bind.bind, Except.bind]
  · intro render st reply msg fs hm hp h1 h2 h3
    unfold generateRecommendationsNode
    simp [hm, hp, Json.pyGet, h1, h2, h3, Bind.bind, Except.bind]
  · intro st reply fs hp h1
    unfold extractSymptomsNode
    simp [hp, Json.pyGet, h1, Bind.bind, Except.bind]

/-- Witness for C5 at a concrete stage-2 reply omitting `red_flags`. -/
theorem c5_witness :
    assessUrgencyNode sampleStateS1
        "\x7b\"urgency_level\": \"routine\", \"urgency_assessment\": \"ok\"\x7d" =
      .ok { sampleStateS1 with
              urgency_level := some UrgencyLevel.routine,
              urgency_assessment := some (.str "ok"),
              red_flags := some (.arr []) } :=
  c5_missing_optional_defaults.1 sampleStateS1 _ _
    [("urgency_level", .str "routine"), ("urgency_assessment", .str "ok")]
    (.str "routine") (.str "ok") .routine rfl rfl rfl rfl rfl rfl

/-- C2: when a stage-3 reply parses to an object lacking
`recommended_specialist` (with stages 1 and 2 having succeeded and the
stage-3 request built), the whole run aborts with the `KeyError` —
one of the error kinds §7 groups under `MalformedUpstreamResponse` —
no final state is produced, and the HTTP caller receives an error
response rather than any partial context; similarly a stage-2
`urgency_level` outside the enumeration aborts the run with the
`ValueError` naming the enumeration. -/
theorem c2_missing_required_aborts :
    (∀ (render : UrgencyLevel → String) (st0 s1 s2 : SymptomState)
        (r1 r2 r3 r4 m : String) (fs : List (String × Json)),
      extractSymptomsNode st0 r1 = .ok s1 →
      assessUrgencyNode s1 r2 = .ok s2 →
      stage3Message render s2 = .ok m →
      parseLLMReply "Failed to parse specialist routing response" r3 =
        .ok (.obj fs) →
      lookupKey fs "recommended_specialist" = none →
      runPipeline render st0 r1 r2 r3 r4 =
        .error (.keyError "recommended_specialist") ∧
      isMalformedUpstream (.keyError "recommended_specialist") = true ∧
      ∀ req, initialStateOf req = st0 →
        routeSymptoms render req r1 r2 r3 r4 =
          .error ⟨500, "Failed to process symptoms. Please try again."⟩) ∧
    (∀ (render : UrgencyLevel → String) (st0 s1 : SymptomState)
        (r1 r2 r3 r4 m e : String) (fs : List (String × Json)) (ulv : Json),
      extractSymptomsNode st0 r1 = .ok s1 →
      stage2Message s1 = .ok m →
      parseLLMReply "Failed to parse urgency assessment response" r2 =
        .ok (.obj fs) →
      lookupKey fs "urgency_level" = some ulv →
      urgencyLevelOf ulv = .error (.valueError e) →
      runPipeline render st0 r1 r2 r3 r4 = .error (.valueError e) ∧
      isMalformedUpstream (.valueError e) = true) := by
  constructor
  · intro render st0 s1 s2 r1 r2 r3 r4 m fs h1 h2 hm hp hnone
    have hrun : runPipeline render st0 r1 r2 r3 r4 =
        .error (.keyError "recommended_specialist") := by
      unfold runPipeline routeSpecialistNode
      simp [h1, h2, hm, hp, Json.getItem, hnone, Bind.bind, Except.bind]
    refine ⟨hrun, rfl, ?_⟩
    intro req hreq
    unfold routeSymptoms
    rw [hreq, hrun]
    simp [Bind.bind, Except.bind, PyError.isValueError]
  · intro render st0 s1 r1 r2 r3 r4 m e fs ulv h1 hm hp hl hu
    have hrun : runPipeline render st0 r1 r2 r3 r4 =
        .error (.valueError e) := by
      unfold runPipeline assessUrgencyNode
      simp [h1, hm, hp, Json.getItem, hl, hu, Bind.bind, Except.bind]
    exact ⟨hrun, rfl⟩

/-- Witness for C2 at a concrete stage-3 reply lacking
`recommended_specialist`. -/
theorem c2_witness :
    runPipeline UrgencyLevel.value sampleState wf1 wf2
        "\x7b\"reasoning\": \"fits\"\x7d" "" =
      .error (.keyError "recommended_specialist") ∧
    routeSymptoms UrgencyLevel.value
        ⟨"persistent cough for two weeks", some 35, some "female",
         some "2 weeks", some ["asthma"], some []⟩ wf1 wf2
        "\x7b\"reasoning\": \"fits\"\x7d" "" =
      .error ⟨500, "Failed to process symptoms. Please try again."⟩ := by
  have h := c2_missing_required_aborts.1 UrgencyLevel.value sampleState _ _
    wf1 wf2 "\x7b\"reasoning\": \"fits\"\x7d" "" _
    [("reasoning", .str "fits")] rfl rfl rfl rfl rfl
  exact ⟨h.1, h.2.2 ⟨"persistent cough for two weeks", some 35,
    some "female", some "2 weeks", some ["asthma"], some []⟩ rfl⟩

/-- C7: each of the four stage functions writes only its own stage's
derived fields: on success every input field and every other derived
field of the state is returned unchanged, so each derived field is
populated by exactly one stage and never mutated by a later one. -/
theorem c7_stage_frame :
    (∀ (st st' : SymptomState) (r : String),
      extractSymptomsNode st r = .ok st' →
      st'.symptoms = st.symptoms ∧ st'.age = st.age ∧ st'.sex = st.sex ∧
      st'.duration = st.duration ∧
      st'.existing_conditions = st.existing_conditions ∧
      st'.current_medications = st.current_medications ∧
      st'.urgency_assessment = st.urgency_assessment ∧
      st'.urgency_level = st.urgency_level ∧
      st'.red_flags = st.red_flags ∧
      st'.recommended_specialist = st.recommended_specialist ∧
      st'.reasoning = st.reasoning ∧
      st'.suggested_preparations = st.suggested_preparations ∧
      st'.suggested_tests = st.suggested_tests ∧
      st'.home_care_tips = st.home_care_tips) ∧
    (∀ (st st' : SymptomState) (r : String),
      assessUrgencyNode st r = .ok st' →
      st'.symptoms = st.symptoms ∧ st'.age = st.age ∧ st'.sex = st.sex ∧
      st'.duration = st.duration ∧
      st'.existing_conditions = st.existing_conditions ∧
      st'.current_medications = st.current_medications ∧
      st'.extracted_symptoms = st.extracted_symptoms ∧
      st'.recommended_specialist = st.recommended_specialist ∧
      st'.reasoning = st.reasoning ∧
      st'.suggested_preparations = st.suggested_preparations ∧
      st'.suggested_tests = st.suggested_tests ∧
      st'.home_care_tips = st.home_care_tips) ∧
    (∀ (render : UrgencyLevel → String) (st st' : SymptomState) (r : String),
      routeSpecialistNode render st r = .ok st' →
      st'.symptoms = st.symptoms ∧ st'.age = st.age ∧ st'.sex = st.sex ∧
      st'.duration = st.duration ∧
      st'.existing_conditions = st.existing_conditions ∧
      st'.current_medications = st.current_medications ∧
      st'.extracted_symptoms = st.extracted_symptoms ∧
      st'.urgency_assessment = st.urgency_assessment ∧
      st'.urgency_level = st.urgency_level ∧
      st'.red_flags = st.red_flags ∧
      st'.suggested_preparations = st.suggested_preparations ∧
      st'.suggested_tests = st.suggested_tests ∧
      st'.home_care_tips = st.home_care_tips) ∧
    (∀ (render : UrgencyLevel → String) (st st' : SymptomState) (r : String),
      generateRecommendationsNode render st r = .ok st' →
      st'.symptoms = st.symptoms ∧ st'.age = st.age ∧ st'.sex = st.sex ∧
      st'.duration = st.duration ∧
      st'.existing_conditions = st.existing_conditions ∧
      st'.current_medications = st.current_medications ∧
      st'.extracted_symptoms = st.extracted_symptoms ∧
      st'.urgency_assessment = st.urgency_assessment ∧
      st'.urgency_level = st.urgency_level ∧
      st'.red_flags = st.red_flags ∧
      st'.recommended_specialist = st.recommended_specialist ∧
      st'.reasoning = st.reasoning) :=
  ⟨fun _ _ _ h => (extractSymptomsNode_ok h).2,
   fun _ _ _ h => (assessUrgencyNode_ok h).2.2.2,
   fun _ _ _ _ h => (routeSpecialistNode_ok h).2.2,
   fun _ _ _ _ h => (generateRecommendationsNode_ok h).2.2.2⟩

/-- Witness for C7: the frame of stage 1 at a concrete run. -/
theorem c7_witness :
    ({ sampleState with
         extracted_symptoms := some (.arr [.str "cough"]) } :
        SymptomState).symptoms = sampleState.symptoms :=
  (c7_stage_frame.1 sampleState
    { sampleState with extracted_symptoms := some (.arr [.str "cough"]) }
    wf1 rfl).1


/-- C8 (code bug): with a stage-2 reply whose `urgency_level` value is
outside the enumeration, the endpoint answers HTTP 400 whose detail is
the enum `ValueError` text embedding the upstream-supplied value — the
detail contains raw reply content and differs between two replies, so
it is neither the generic message nor independent of the reply. -/
theorem c8_detail_leaks_reply_content :
    routeSymptoms UrgencyLevel.value sampleRequest wf1
        "\x7b\"urgency_level\": \"banana\", \"urgency_assessment\": \"x\"\x7d"
        wf3 "\x7b\"suggested_preparations\": []\x7d" =
      .error ⟨400, "\x27banana\x27 is not a valid UrgencyLevel"⟩ ∧
    strOccurs "banana" "\x27banana\x27 is not a valid UrgencyLevel" ∧
    routeSymptoms UrgencyLevel.value sampleRequest wf1
        "\x7b\"urgency_level\": \"frobnicate\", \"urgency_assessment\": \"x\"\x7d"
        wf3 "\x7b\"suggested_preparations\": []\x7d" =
      .error ⟨400, "\x27frobnicate\x27 is not a valid UrgencyLevel"⟩ ∧
    ("\x27banana\x27 is not a valid UrgencyLevel" : String) ≠
      "\x27frobnicate\x27 is not a valid UrgencyLevel" :=
  ⟨rfl, rfl, rfl, by decide⟩


set_option maxRecDepth 16384 in
/-- C6 counterexample: the stage-3 request omits the accumulated
`urgency_assessment` (the marker XYZZY does not occur in it), and the
stage-4 request omits both the accumulated `red_flags` and `reasoning`
— so stage N's request does not embed the full accumulated context of
stages 1..N-1. -/
theorem c6_counterexample :
    (stage3Message UrgencyLevel.value c6State).map
        (fun m => occursB "XYZZY".data m.data) = .ok false ∧
    (stage4Message UrgencyLevel.value c6State4).map
        (fun m => occursB "chest pain".data m.data) = .ok false ∧
    (stage4Message UrgencyLevel.value c6State4).map
        (fun m => occursB "PLUGH".data m.data) = .ok false :=
  ⟨rfl, rfl, rfl⟩

/-- C6 (amended): the stage-3 request embeds the interpolated stage-2
urgency member and the joined extracted-symptom list, and — when the
`red_flags` value is truthy — the joined red flags; the stage-4 request
embeds the interpolated urgency member and the interpolated
specialist.  (Not every earlier derived field is embedded: see the
counterexample.) -/
theorem c6_request_embeds_context :
    (∀ (render : UrgencyLevel → String) (st : SymptomState) (m sl : String)
        (u : UrgencyLevel) (es : Json),
      st.urgency_level = some u → st.extracted_symptoms = some es →
      pyJoin ", " es = .ok sl →
      stage3Message render st = .ok m →
      strOccurs (render u) m ∧ strOccurs sl m) ∧
    (∀ (render : UrgencyLevel → String) (st : SymptomState) (m rj : String)
        (rf : Json),
      st.red_flags = some rf → Json.truthy rf = true →
      pyJoin ", " rf = .ok rj →
      stage3Message render st = .ok m → strOccurs rj m) ∧
    (∀ (render : UrgencyLevel → String) (st : SymptomState) (m : String)
        (u : UrgencyLevel) (spv : Json),
      st.urgency_level = some u → st.recommended_specialist = some spv →
      stage4Message render st = .ok m →
      strOccurs (render u) m ∧ strOccurs (pyStr spv) m) := by
  refine ⟨?_, ?_, ?_⟩
  · intro render st m sl u es hu hes hjoin hok
    unfold stage3Message at hok
    simp only [hes, hu, hjoin, stateGet, ok_bind, bind_ok_iff,
      Except.ok.injEq] at hok
    obtain ⟨rf, hrf, hok⟩ := hok
    by_cases htru : rf.truthy = true
    · rw [if_pos htru] at hok
      simp only [ok_bind, bind_ok_iff, Except.ok.injEq] at hok
      obtain ⟨j, hj, hm⟩ := hok
      subst hm
      constructor
      · exact strOccurs_append_left _ (strOccurs_append_left _
          (strOccurs_append_left _ (strOccurs_append_right _
            (strOccurs_self _))))
      · exact strOccurs_append_left _ (strOccurs_append_left _
          (strOccurs_append_left _ (strOccurs_append_left _
            (strOccurs_append_left _
              (strOccurs_append_right _ (strOccurs_self _))))))
    · rw [if_neg htru] at hok
      simp only [ok_bind, Except.ok.injEq] at hok
      subst hok
      constructor
      · exact strOccurs_append_left _ (strOccurs_append_left _
          (strOccurs_append_left _ (strOccurs_append_right _
            (strOccurs_self _))))
      · exact strOccurs_append_left _ (strOccurs_append_left _
          (strOccurs_append_left _ (strOccurs_append_left _
            (strOccurs_append_left _
              (strOccurs_append_right _ (strOccurs_self _))))))
  · intro render st m rj rf hrf htru hjoin hok
    unfold stage3Message at hok
    simp only [hrf, htru, hjoin, stateGet, ok_bind, if_true, bind_ok_iff,
      Except.ok.injEq] at hok
    obtain ⟨es, hes, sl, hsl, hm⟩ := hok
    cases hq : st.urgency_level with
    | none => rw [hq] at hm; simp [Bind.bind, Except.bind] at hm
    | some u =>
        rw [hq] at hm
        simp only [Except.ok.injEq] at hm
        subst hm
        exact strOccurs_append_left _ (strOccurs_append_right _
          (strOccurs_append_right _ (strOccurs_self _)))
  · intro render st m u spv hu hsp hok
    unfold stage4Message at hok
    simp only [hu, hsp, stateGet, ok_bind, bind_ok_iff,
      Except.ok.injEq] at hok
    obtain ⟨es, hes, sl, hsl, hm⟩ := hok
    subst hm
    constructor
    · exact strOccurs_append_left _ (strOccurs_append_right _
        (strOccurs_self _))
    · exact strOccurs_append_left _ (strOccurs_append_left _
        (strOccurs_append_left _ (strOccurs_append_right _
          (strOccurs_self _))))

/-- Witness for C6: the stage-3 request built from `c6State` contains
the interpolated urgency value. -/
theorem c6_witness :
    ∃ m, stage3Message UrgencyLevel.value c6State = .ok m ∧
      strOccurs (UrgencyLevel.value .urgent) m :=
  ⟨_, rfl, (c6_request_embeds_context.1 UrgencyLevel.value c6State _
    "cough, fever" .urgent (.arr [.str "cough", .str "fever"])
    rfl rfl rfl rfl).1⟩

/-! ## Lemmas on the recovery-regex scan -/

theorem scanMatch_false_close (cs : List Char) :
    scanMatch false ('}' :: cs) = some ['}'] := rfl

theorem scanMatch_false_open (cs : List Char) :
    scanMatch false ('{' :: cs) = (scanMatch true cs).map ('{' :: ·) := rfl

theorem scanMatch_true_close (cs : List Char) :
    scanMatch true ('}' :: cs) = (scanMatch false cs).map ('}' :: ·) := rfl

/-- The scan passes over brace-free text unchanged, at either depth. -/
theorem scanMatch_braceFree_skip (x : List Char) (d : Bool)
    (r : List Char) (hx : braceFree x) :
    scanMatch d (x ++ r) = (scanMatch d r).map (x ++ ·) := by
  induction x with
  | nil =>
      cases hs : scanMatch d r <;> simp [hs]
  | cons c t ih =>
      have hc := hx c (List.mem_cons_self c t)
      simp only [isBrace, Bool.or_eq_false_iff, decide_eq_false_iff_not] at hc
      have ht : braceFree t := fun a ha => hx a (List.mem_cons_of_mem c ha)
      cases d <;>
        simp [scanMatch, hc.1, hc.2, ih ht, Option.map_map,
          Function.comp_def]

/-- The scan consumes a sequence of singly-nested blocks and stops at
the first top-level closing brace. -/
theorem scanMatch_blocks (blocks : List (List Char × List Char))
    (hb : ∀ p ∈ blocks, braceFree p.1 ∧ braceFree p.2) (rest : List Char) :
    scanMatch false (blockChars blocks ++ '}' :: rest) =
      some (blockChars blocks ++ ['}']) := by
  induction blocks with
  | nil => simp [blockChars, scanMatch_false_close]
  | cons p bs ih =>
      obtain ⟨b, a⟩ := p
      have hb1 : braceFree b := (hb (b, a) (by simp)).1
      have ha1 : braceFree a := (hb (b, a) (by simp)).2
      have hbs : ∀ q ∈ bs, braceFree q.1 ∧ braceFree q.2 :=
        fun q hq => hb q (List.mem_cons_of_mem _ hq)
      simp only [blockChars, List.cons_append, List.append_assoc]
      rw [scanMatch_false_open,
        scanMatch_braceFree_skip b true _ hb1, scanMatch_true_close,
        scanMatch_braceFree_skip a false _ ha1, ih hbs]
      simp [Option.map_map, Function.comp, List.append_assoc]

/-- The left-to-right search skips any prefix containing no opening
brace. -/
theorem regexSearch_skip (pre s : List Char) (hpre : '{' ∉ pre) :
    regexSearchChars (pre ++ s) = regexSearchChars s := by
  induction pre with
  | nil => rfl
  | cons c t ih =>
      have hc : ¬(c = '{') := fun h => hpre (h ▸ List.mem_cons_self c t)
      have ht : '{' ∉ t := fun h => hpre (List.mem_cons_of_mem c h)
      simp [regexSearchChars, hc, ih ht]

/-- The leftmost-match search on noise, a depth-≤2 brace block and a
tail returns exactly the block. -/
theorem regexSearch_depth2 (pre a0 post : List Char)
    (blocks : List (List Char × List Char)) (hpre : '{' ∉ pre)
    (ha0 : braceFree a0)
    (hblocks : ∀ p ∈ blocks, braceFree p.1 ∧ braceFree p.2) :
    regexSearchChars
        (pre ++ ('{' :: (a0 ++ blockChars blocks ++ ['}'])) ++ post) =
      some ('{' :: (a0 ++ blockChars blocks ++ ['}'])) := by
  rw [List.append_assoc, regexSearch_skip _ _ hpre]
  have hscan : scanMatch false
      (a0 ++ (blockChars blocks ++ '}' :: post)) =
      some (a0 ++ (blockChars blocks ++ ['}'])) := by
    rw [scanMatch_braceFree_skip a0 false _ ha0,
      scanMatch_blocks blocks hblocks post]
    rfl
  simp [regexSearchChars, hscan, List.append_assoc]

/-- C3 (amended): when a reply's direct parse fails, the recovery pass
extracts the leftmost substring matching the one-level-nesting brace
pattern; so for any reply whose text is an opening brace, brace-free
text, any number of singly-nested brace blocks, and a closing brace —
a balanced block of brace-nesting depth at most 2, counting every brace
character — preceded by noise containing no opening brace, recovery
yields exactly that whole block.  (For depth 3 or more it may return an
inner fragment: see the counterexample.) -/
theorem c3_recovery_extracts_depth2 (pre a0 post : List Char)
    (blocks : List (List Char × List Char)) (hpre : '{' ∉ pre)
    (ha0 : braceFree a0)
    (hblocks : ∀ p ∈ blocks, braceFree p.1 ∧ braceFree p.2) :
    extractJson (String.mk
        (pre ++ ('{' :: (a0 ++ blockChars blocks ++ ['}'])) ++ post)) =
      some (String.mk ('{' :: (a0 ++ blockChars blocks ++ ['}']))) := by
  unfold extractJson
  have hdata : (String.mk
      (pre ++ ('{' :: (a0 ++ blockChars blocks ++ ['}'])) ++ post)).data =
      pre ++ ('{' :: (a0 ++ blockChars blocks ++ ['}'])) ++ post := rfl
  rw [hdata, regexSearch_depth2 pre a0 post blocks hpre ha0 hblocks]
  rfl

/-- Witness for C3 at the concrete reply `noise {"a":1} noise`. -/
theorem c3_witness :
    extractJson (String.mk
        ("noise ".data ++
          ('{' :: ("\"a\":1".data ++ blockChars [] ++ ['}'])) ++
          " noise".data)) =
      some (String.mk ('{' :: ("\"a\":1".data ++ blockChars [] ++ ['}']))) :=
  c3_recovery_extracts_depth2 "noise ".data "\"a\":1".data " noise".data []
    (by decide) (by decide) (by simp)

end TriCare
